import Mathlib

/-!
Shallow embedding of `scorecard.py` (longterm-stock-scorer): a deterministic
stock-scoring pipeline.  Numbers are modelled as exact rationals, Python
`None` as `Option.none`, Python `round` as round-half-to-even, and the
provider `info` dict as a record of optional fields.
-/

namespace Scorecard

/-- Python `round` on a rational: round half to even (banker's rounding). -/
def pyRound (q : ℚ) : ℤ :=
  let f := ⌊q⌋
  if q - f < 1/2 then f
  else if q - f > 1/2 then f + 1
  else if f % 2 = 0 then f else f + 1

/-- Python `round(x, 2)`: round to two decimal places, half to even. -/
def pyRound2 (q : ℚ) : ℚ :=
  (pyRound (q * 100) : ℚ) / 100

/- ===== Configuration constants (verbatim from the CONFIGURATION block) ===== -/

def SCORING_NORMALIZATION_ENABLED : Bool := true

def HIGH_YIELD_DIVIDEND_PENALTY_ENABLED : Bool := true

def HIGH_YIELD_DIVIDEND_PENALTY_POINTS : ℤ := 1

def FINANCIAL_OVERALLRISK_SAFETY_PENALTY_ENABLED : Bool := true

def FINANCIAL_OVERALLRISK_SAFETY_THRESHOLDS : List (ℚ × ℤ) := [(7, 1)]

def EXTREME_PAYOUT_GATE_ENABLED : Bool := true

/-- One entry of `EXTREME_PAYOUT_THRESHOLDS`: the action dict attached to a
payout threshold (`dividend_to`, `dividend_cap`, `safety_minus` keys,
each optional as in the Python dict). -/
structure PayoutGateAction where
  dividend_to : Option ℤ := none
  dividend_cap : Option ℤ := none
  safety_minus : Option ℤ := none
deriving Repr, DecidableEq

/-- The list `EXTREME_PAYOUT_THRESHOLDS`, already in descending threshold order as in
the source literal (the Python code re-sorts descending before walking;
for this list that sort is the identity). -/
def EXTREME_PAYOUT_THRESHOLDS : List (ℚ × PayoutGateAction) :=
  [(150, { dividend_to := some 0, safety_minus := some 1 }),
   (100, { dividend_cap := some 1 })]

def COMPOUNDER_QUALITY_BOOST_ENABLED : Bool := true

def COMPOUNDER_QUALITY_BOOST_BLOCK : String := "Quality"

def COMPOUNDER_QUALITY_BOOST_POINTS : ℤ := 1

/-- The `COMPOUNDER_QUALITY_CRITERIA` dict. -/
structure CompounderCriteria where
  roa_min : ℚ
  beta_max : ℚ
  payout_min : ℚ
  payout_max : ℚ
  safety_min : ℤ

def COMPOUNDER_QUALITY_CRITERIA : CompounderCriteria :=
  { roa_min := 0.065, beta_max := 0.9, payout_min := 30.0,
    payout_max := 70.0, safety_min := 3 }

def SPECIAL_DIVIDEND_DETECTION_ENABLED : Bool := true

def SPECIAL_DIVIDEND_THRESHOLD_PCT : ℚ := 20.0

/-- The `SPECIAL_DIVIDEND_PENALTY` dict. -/
structure SpecialDividendPenalty where
  max_dividend_score : ℤ
  flag_special_dividend : Bool

def SPECIAL_DIVIDEND_PENALTY : SpecialDividendPenalty :=
  { max_dividend_score := 2, flag_special_dividend := true }

def RECOMMENDATION_ENABLED : Bool := true

/-- One band of `RECOMMENDATION_THRESHOLDS`. -/
structure RecoBand where
  action : String
  score_min : ℤ
  score_max : ℤ
  description : String
  color : String
deriving Repr, DecidableEq

/-- The table `RECOMMENDATION_THRESHOLDS` in dict-declaration order (Python dicts
iterate in insertion order). -/
def RECOMMENDATION_THRESHOLDS : List RecoBand :=
  [{ action := "ACHETER", score_min := 16, score_max := 20,
     description := "Excellence exceptionnelle - Opportunité d\x27accumulation prioritaire",
     color := "green" },
   { action := "RENFORCER", score_min := 14, score_max := 15,
     description := "Très bonne qualité - Accumuler progressivement sur replis",
     color := "lightgreen" },
   { action := "CONSERVER", score_min := 12, score_max := 13,
     description := "Cœur de portefeuille - Tenir long terme, ne pas vendre",
     color := "gray" },
   { action := "ALLEGER", score_min := 9, score_max := 11,
     description := "Qualité correcte mais pas prioritaire - Réduire si surpondéré",
     color := "orange" },
   { action := "VENDRE", score_min := 0, score_max := 8,
     description := "Qualité insuffisante ou risque élevé - Sortir progressivement",
     color := "red" }]

def PAYOUT_UNSUSTAINABLE_MIN : ℚ := 0.95

def HIGH_YIELD_ALERT_MIN : ℚ := 0.08

def EXTREME_PEG_LOW_MAX : ℚ := 0.20

def EXTREME_PEG_HIGH_MIN : ℚ := 3.00

def SPECIAL_DIV_MULTIPLIER : ℚ := 1.25

def MISSING_DATA_MIN_FIELDS : ℕ := 3

def QUALITY_ROA_THRESHOLDS : ℚ × ℚ := (0.02, 0.05)

def QUALITY_ROE_THRESHOLDS : ℚ × ℚ × ℚ := (0.08, 0.12, 0.15)

def SAFETY_BETA_THRESHOLDS : ℚ × ℚ := (0.7, 1.2)

def SAFETY_DEBT_RATIO_THRESHOLD : ℚ := 2.0

def PEGY_THRESHOLDS : ℚ × ℚ := (0.5, 1.0)

def PE_FWD_THRESHOLD : ℚ := 15

def DIVIDEND_YIELD_THRESHOLDS : ℚ × ℚ × ℚ := (0.02, 0.04, 0.06)

def DIVIDEND_PAYOUT_MAX : ℚ := 0.8

/- ===== Data model ===== -/

/-- The sparse provider field mapping (`ticker.info`): every field the
pipeline reads, each optional.  Absent key = `none`. -/
structure Info where
  returnOnAssets : Option ℚ := none
  returnOnEquity : Option ℚ := none
  beta : Option ℚ := none
  totalDebt : Option ℚ := none
  totalCash : Option ℚ := none
  ebitda : Option ℚ := none
  forwardPE : Option ℚ := none
  trailingPE : Option ℚ := none
  priceToBook : Option ℚ := none
  debtToEquity : Option ℚ := none
  overallRisk : Option ℚ := none
  epsCurrentYear : Option ℚ := none
  epsForward : Option ℚ := none
  dividendYield : Option ℚ := none
  payoutRatio : Option ℚ := none
  dividendRate : Option ℚ := none
  trailingAnnualDividendRate : Option ℚ := none
  trailingAnnualDividendYield : Option ℚ := none
  sector : Option String := none
  industry : Option String := none
  quoteType : Option String := none
  shortName : Option String := none
  longName : Option String := none

/-- The profile string: only `"Standard"` and `"Financial"` are ever
produced by `analyze_stock`. -/
inductive Profile where
  | Standard
  | Financial
deriving DecidableEq, Repr

/-- The raw-metrics snapshot dict.  `build_raw_standard` and
`build_raw_financial` populate disjoint-but-overlapping key sets; a key
the builder does not write is simply absent (`none`), matching
`_safe_get(raw, key)` returning `None`. -/
structure Raw where
  yield_pct : Option ℚ := none
  payout_pct : Option ℚ := none
  pegy : Option ℚ := none
  roa : Option ℚ := none
  totalDebt : Option ℚ := none
  totalCash : Option ℚ := none
  ebitda : Option ℚ := none
  beta : Option ℚ := none
  roe : Option ℚ := none
  pb : Option ℚ := none
  pe_fwd : Option ℚ := none
  pe_ttm : Option ℚ := none
  debtToEquity : Option ℚ := none
  overallRisk : Option ℚ := none
deriving Repr, DecidableEq

/-- The blocks dict: both profile scorers create exactly these four keys. -/
structure Blocks where
  Quality : ℤ
  Safety : ℤ
  ValueGrowth : ℤ
  Dividend : ℤ
deriving Repr, DecidableEq

/-- Python `blocks[name]` for the four block keys (`blocks.get(name, 0)` default). -/
def blockGet (b : Blocks) : String → ℤ
  | "Quality" => b.Quality
  | "Safety" => b.Safety
  | "ValueGrowth" => b.ValueGrowth
  | "Dividend" => b.Dividend
  | _ => 0

/-- Python `blocks[name] = v` for the four block keys. -/
def blockSet (b : Blocks) (name : String) (v : ℤ) : Blocks :=
  if name = "Quality" then { b with Quality := v }
  else if name = "Safety" then { b with Safety := v }
  else if name = "ValueGrowth" then { b with ValueGrowth := v }
  else if name = "Dividend" then { b with Dividend := v }
  else b

/-- The anomaly-flag dict produced by `compute_flags`. -/
structure Flags where
  missing_data : Bool
  missing_fields : List String
  payout_unsustainable : Bool
  special_dividend : Bool
  extreme_peg : Bool
  high_yield_alert : Bool
deriving Repr, DecidableEq

/- ===== Metric normalizer ===== -/

/-- Source function `normalize_yield_fraction`. -/
def normalize_yield_fraction : Option ℚ → Option ℚ
  | none => none
  | some y => if y > 1.0 then some (y / 100.0) else some y

/-- Source function `normalize_payout_ratio`. -/
def normalize_payout_ratio : Option ℚ → Option ℚ
  | none => none
  | some p => if p ≥ 0 then some p else none

/-- Source function `detect_special_dividend`. -/
def detect_special_dividend : Option ℚ → Bool
  | none => false
  | some yield_pct =>
    if SPECIAL_DIVIDEND_DETECTION_ENABLED = false then false
    else decide (yield_pct > SPECIAL_DIVIDEND_THRESHOLD_PCT)

/- ===== Block scorers, Standard profile ===== -/

/-- Source function `score_quality_standard`: Quality in 0..2 for the Standard profile. -/
def score_quality_standard (info : Info) : ℤ :=
  match info.returnOnAssets with
  | none => 1
  | some roa =>
    if roa ≥ QUALITY_ROA_THRESHOLDS.2 then 2
    else if roa ≥ QUALITY_ROA_THRESHOLDS.1 then 1
    else 0

/-- The beta term (0..2) of `score_safety_standard`. -/
def safety_beta_term (beta : Option ℚ) : ℤ :=
  match beta with
  | some b =>
    if b < SAFETY_BETA_THRESHOLDS.1 then 2
    else if b < SAFETY_BETA_THRESHOLDS.2 then 1
    else 0
  | none => 1

/-- The debt term (1..3) of `score_safety_standard`. -/
def safety_debt_term (totalDebt ebitda : Option ℚ) : ℤ :=
  match totalDebt, ebitda with
  | some td, some eb =>
    if eb > 0 then
      let debt_ratio := td / eb
      if debt_ratio < SAFETY_DEBT_RATIO_THRESHOLD then 3
      else if debt_ratio < SAFETY_DEBT_RATIO_THRESHOLD * 1.5 then 2
      else 1
    else 1
  | _, _ => 1

/-- Source function `score_safety_standard`: Safety in 0..5 for the Standard profile. -/
def score_safety_standard (info : Info) : ℤ :=
  min (safety_beta_term info.beta + safety_debt_term info.totalDebt info.ebitda) 5

/-- Source function `compute_pegy_standard`.  The Python guard
`not (pe_fwd and eps_current and eps_forward and eps_current > 0)` uses
truthiness: a field that is present but exactly `0.0` is falsy and makes
the function return `None`, just like an absent field. -/
def compute_pegy_standard (info : Info) : Option ℚ :=
  match info.forwardPE, info.epsCurrentYear, info.epsForward with
  | some pe_fwd, some eps_current, some eps_forward =>
    if pe_fwd ≠ 0 ∧ eps_current ≠ 0 ∧ eps_forward ≠ 0 ∧ eps_current > 0 then
      let growth_rate := (eps_forward - eps_current) / eps_current
      if growth_rate ≤ 0 then none
      else some (pe_fwd / (growth_rate * 100))
    else none
  | _, _, _ => none

/-- Source function `score_value_growth_standard`: ValueGrowth in 0..5 for Standard. -/
def score_value_growth_standard (info : Info) : ℤ :=
  let pegyTerm : ℤ :=
    match compute_pegy_standard info with
    | some pegy =>
      if pegy ≤ PEGY_THRESHOLDS.1 then 3
      else if pegy ≤ PEGY_THRESHOLDS.2 then 2
      else 1
    | none => 1
  let peTerm : ℤ :=
    match info.forwardPE with
    | some pe_fwd =>
      if pe_fwd < PE_FWD_THRESHOLD then 2
      else if pe_fwd < PE_FWD_THRESHOLD * 1.5 then 1
      else 0
    | none => 1
  min (pegyTerm + peTerm) 5

/-- Source function `score_dividend_standard`: Dividend in 0..5 for Standard. -/
def score_dividend_standard (info : Info) : ℤ :=
  let div_yield := normalize_yield_fraction info.dividendYield
  let payout_ratio := normalize_payout_ratio info.payoutRatio
  let yieldTerm : ℤ :=
    match div_yield with
    | some y =>
      if y ≥ DIVIDEND_YIELD_THRESHOLDS.2.2 then 3
      else if y ≥ DIVIDEND_YIELD_THRESHOLDS.2.1 then 2
      else if y ≥ DIVIDEND_YIELD_THRESHOLDS.1 then 1
      else 0
    | none => 0
  let payoutTerm : ℤ :=
    match payout_ratio with
    | some p =>
      if p ≤ DIVIDEND_PAYOUT_MAX then 2
      else if p ≤ 1.0 then 1
      else 0
    | none => 1
  min (yieldTerm + payoutTerm) 5

/-- Source function `get_standard_score`: total plus the blocks dict. -/
def get_standard_score (info : Info) : ℤ × Blocks :=
  let blocks : Blocks :=
    { Quality := score_quality_standard info,
      Safety := score_safety_standard info,
      ValueGrowth := score_value_growth_standard info,
      Dividend := score_dividend_standard info }
  (blocks.Quality + blocks.Safety + blocks.ValueGrowth + blocks.Dividend, blocks)

/- ===== Block scorers, Financial profile ===== -/

/-- Source function `score_quality_financial`: Quality in 0..5 for Financial. -/
def score_quality_financial (info : Info) : ℤ :=
  let roeTerm : ℤ :=
    match info.returnOnEquity with
    | some roe =>
      if roe ≥ QUALITY_ROE_THRESHOLDS.2.2 then 3
      else if roe ≥ QUALITY_ROE_THRESHOLDS.2.1 then 2
      else if roe ≥ QUALITY_ROE_THRESHOLDS.1 then 1
      else 0
    | none => 1
  let pbTerm : ℤ :=
    match info.priceToBook with
    | some pb =>
      if pb < 1.0 then 2
      else if pb < 1.5 then 1
      else 0
    | none => 1
  min (roeTerm + pbTerm) 5

/-- Source function `score_safety_financial`: Safety in 0..5 for Financial. -/
def score_safety_financial (info : Info) : ℤ :=
  let betaTerm : ℤ :=
    match info.beta with
    | some b =>
      if b < SAFETY_BETA_THRESHOLDS.1 then 2
      else if b < SAFETY_BETA_THRESHOLDS.2 then 1
      else 0
    | none => 1
  let deTerm : ℤ :=
    match info.debtToEquity with
    | some de =>
      if de < 100 then 2
      else if de < 150 then 1
      else 0
    | none => 1
  let riskTerm : ℤ :=
    match info.overallRisk with
    | some r => if r ≤ 2 then 1 else 0
    | none => 0
  min (betaTerm + deTerm + riskTerm) 5

/-- Source function `score_value_growth_financial`: ValueGrowth in 0..5 for Financial. -/
def score_value_growth_financial (info : Info) : ℤ :=
  let peFwdTerm : ℤ :=
    match info.forwardPE with
    | some pe =>
      if pe < 10 then 2
      else if pe < 12 then 1
      else 0
    | none => 1
  let peTtmTerm : ℤ :=
    match info.trailingPE with
    | some pe =>
      if pe < 12 then 2
      else if pe < 15 then 1
      else 0
    | none => 1
  let pbBonus : ℤ :=
    match info.priceToBook with
    | some pb => if pb < 0.8 then 1 else 0
    | none => 0
  min (peFwdTerm + peTtmTerm + pbBonus) 5

/-- Source function `score_dividend_financial`: Dividend in 0..5 for Financial. -/
def score_dividend_financial (info : Info) : ℤ :=
  let div_yield := normalize_yield_fraction info.dividendYield
  let payout_ratio := normalize_payout_ratio info.payoutRatio
  let yieldTerm : ℤ :=
    match div_yield with
    | some y =>
      if y ≥ 0.05 then 3
      else if y ≥ 0.03 then 2
      else if y ≥ 0.02 then 1
      else 0
    | none => 0
  let payoutTerm : ℤ :=
    match payout_ratio with
    | some p =>
      if p ≤ 0.7 then 2
      else if p ≤ 0.9 then 1
      else 0
    | none => 1
  min (yieldTerm + payoutTerm) 5

/-- Source function `get_financial_score`: total plus the blocks dict. -/
def get_financial_score (info : Info) : ℤ × Blocks :=
  let blocks : Blocks :=
    { Quality := score_quality_financial info,
      Safety := score_safety_financial info,
      ValueGrowth := score_value_growth_financial info,
      Dividend := score_dividend_financial info }
  (blocks.Quality + blocks.Safety + blocks.ValueGrowth + blocks.Dividend, blocks)

/- ===== Raw-metrics builders ===== -/

/-- The `round(v * 100, 2) if v else None` idiom of the raw builders:
truthiness suppresses the field when the value is absent OR exactly 0. -/
def pct_of_truthy : Option ℚ → Option ℚ
  | none => none
  | some v => if v ≠ 0 then some (pyRound2 (v * 100)) else none

/-- Source function `build_raw_standard`. -/
def build_raw_standard (info : Info) : Raw :=
  let div_yield := normalize_yield_fraction info.dividendYield
  let payout_ratio := normalize_payout_ratio info.payoutRatio
  { yield_pct := pct_of_truthy div_yield,
    payout_pct := pct_of_truthy payout_ratio,
    pegy := compute_pegy_standard info,
    roa := info.returnOnAssets,
    totalDebt := info.totalDebt,
    totalCash := info.totalCash,
    ebitda := info.ebitda,
    beta := info.beta }

/-- Source function `build_raw_financial`. -/
def build_raw_financial (info : Info) : Raw :=
  let div_yield := normalize_yield_fraction info.dividendYield
  let payout_ratio := normalize_payout_ratio info.payoutRatio
  { roe := info.returnOnEquity,
    pb := info.priceToBook,
    pe_fwd := info.forwardPE,
    pe_ttm := info.trailingPE,
    beta := info.beta,
    debtToEquity := info.debtToEquity,
    overallRisk := info.overallRisk,
    yield_pct := pct_of_truthy div_yield,
    payout_pct := pct_of_truthy payout_ratio }

/- ===== Anomaly flags ===== -/

/-- Python `_safe_get(raw, key)` for the string keys used by `compute_flags`. -/
def rawGet (raw : Raw) : String → Option ℚ
  | "yield_pct" => raw.yield_pct
  | "payout_pct" => raw.payout_pct
  | "pegy" => raw.pegy
  | "roa" => raw.roa
  | "totalDebt" => raw.totalDebt
  | "totalCash" => raw.totalCash
  | "ebitda" => raw.ebitda
  | "beta" => raw.beta
  | "roe" => raw.roe
  | "pb" => raw.pb
  | "pe_fwd" => raw.pe_fwd
  | "pe_ttm" => raw.pe_ttm
  | "debtToEquity" => raw.debtToEquity
  | "overallRisk" => raw.overallRisk
  | _ => none

/-- The per-profile required-field list of `compute_flags`. -/
def required_fields : Profile → List String
  | Profile.Financial =>
    ["roe", "pb", "pe_fwd", "pe_ttm", "beta", "overallRisk", "yield_pct", "payout_pct"]
  | Profile.Standard =>
    ["roa", "totalDebt", "totalCash", "ebitda", "beta", "yield_pct", "payout_pct", "pegy"]

/-- Source function `compute_flags`. -/
def compute_flags (info : Info) (profile : Profile) (raw : Raw) : Flags :=
  let missing := (required_fields profile).filter (fun k => (rawGet raw k).isNone)
  let missing_data := decide (missing.length ≥ MISSING_DATA_MIN_FIELDS)
  let payout_pct := raw.payout_pct
  let payout_unsustainable :=
    match payout_pct with
    | some p => decide (p ≥ PAYOUT_UNSUSTAINABLE_MIN * 100)
    | none => false
  let y := raw.yield_pct
  let high_yield_alert :=
    match y with
    | some v => decide (v ≥ HIGH_YIELD_ALERT_MIN * 100)
    | none => false
  let special_pass1 := detect_special_dividend y
  let extreme_peg :=
    match profile, raw.pegy with
    | Profile.Standard, some pegy =>
      decide (pegy ≤ EXTREME_PEG_LOW_MAX) || decide (pegy ≥ EXTREME_PEG_HIGH_MIN)
    | _, _ => false
  let dividend_yield := normalize_yield_fraction info.dividendYield
  let trailing_div_yield := normalize_yield_fraction info.trailingAnnualDividendYield
  let special_pass2 :=
    match info.dividendRate, info.trailingAnnualDividendRate with
    | some dr, some tdr =>
      if dr ≠ 0 ∧ tdr ≠ 0 then decide (tdr > dr * SPECIAL_DIV_MULTIPLIER) else false
    | _, _ => false
  let special_pass3 :=
    match dividend_yield, trailing_div_yield with
    | some dy, some tdy =>
      if dy ≠ 0 ∧ tdy ≠ 0 then decide (tdy > dy * SPECIAL_DIV_MULTIPLIER) else false
    | _, _ => false
  let special_pass4 := high_yield_alert && payout_pct.isNone
  { missing_data := missing_data,
    missing_fields := missing,
    payout_unsustainable := payout_unsustainable,
    special_dividend := special_pass1 || special_pass2 || special_pass3 || special_pass4,
    extreme_peg := extreme_peg,
    high_yield_alert := high_yield_alert }

/- ===== Penalty / boost engine ===== -/

/-- Step 1 of `apply_all_penalties`: special-dividend cap on Dividend. -/
def penalty_step_special_dividend (blocks : Blocks) (flags : Flags) : Blocks :=
  if flags.special_dividend = true ∧ SPECIAL_DIVIDEND_DETECTION_ENABLED = true then
    { blocks with Dividend := min blocks.Dividend SPECIAL_DIVIDEND_PENALTY.max_dividend_score }
  else blocks

/-- Step 2 of `apply_all_penalties`: high-yield penalty on Dividend. -/
def penalty_step_high_yield (blocks : Blocks) (flags : Flags) : Blocks :=
  if flags.high_yield_alert = true ∧ HIGH_YIELD_DIVIDEND_PENALTY_ENABLED = true then
    { blocks with Dividend := max 0 (blocks.Dividend - HIGH_YIELD_DIVIDEND_PENALTY_POINTS) }
  else blocks

/-- Step 3 of `apply_all_penalties`: Financial overallRisk penalty on Safety
(first matching threshold in descending order, then stop). -/
def penalty_step_financial_risk (profile : Profile) (blocks : Blocks) (raw : Raw) : Blocks :=
  match profile, raw.overallRisk with
  | Profile.Financial, some overall_risk =>
    if FINANCIAL_OVERALLRISK_SAFETY_PENALTY_ENABLED = true then
      match FINANCIAL_OVERALLRISK_SAFETY_THRESHOLDS.find?
          (fun tp => decide (overall_risk ≥ tp.1)) with
      | some tp => { blocks with Safety := max 0 (blocks.Safety - tp.2) }
      | none => blocks
    else blocks
  | _, _ => blocks

/-- Step 4 of `apply_all_penalties`: Standard extreme-payout gate (first
matching threshold in descending order, then stop). -/
def penalty_step_extreme_payout (profile : Profile) (blocks : Blocks) (raw : Raw) : Blocks :=
  match profile, raw.payout_pct with
  | Profile.Standard, some payout_pct =>
    if EXTREME_PAYOUT_GATE_ENABLED = true then
      match EXTREME_PAYOUT_THRESHOLDS.find? (fun ta => decide (payout_pct ≥ ta.1)) with
      | some ta =>
        let b1 :=
          match ta.2.dividend_to with
          | some v => { blocks with Dividend := v }
          | none => blocks
        let b2 :=
          match ta.2.dividend_cap with
          | some v => { b1 with Dividend := min b1.Dividend v }
          | none => b1
        match ta.2.safety_minus with
        | some v => { b2 with Safety := max 0 (b2.Safety - v) }
        | none => b2
      | none => blocks
    else blocks
  | _, _ => blocks

/-- Source function `apply_all_penalties`: the four penalty steps in source order. -/
def apply_all_penalties (profile : Profile) (blocks : Blocks) (flags : Flags) (raw : Raw) :
    Blocks :=
  penalty_step_extreme_payout profile
    (penalty_step_financial_risk profile
      (penalty_step_high_yield (penalty_step_special_dividend blocks flags) flags) raw) raw

/-- Source function `apply_compounder_boost` (Standard only; reads Safety after penalties). -/
def apply_compounder_boost (profile : Profile) (blocks : Blocks) (raw : Raw) : Blocks :=
  if COMPOUNDER_QUALITY_BOOST_ENABLED = false then blocks
  else if profile ≠ Profile.Standard then blocks
  else
    match raw.roa, raw.beta, raw.payout_pct with
    | some roa, some beta, some payout =>
      let safety := blocks.Safety
      let criteria := COMPOUNDER_QUALITY_CRITERIA
      if roa ≥ criteria.roa_min ∧ beta < criteria.beta_max ∧
          criteria.payout_min ≤ payout ∧ payout ≤ criteria.payout_max ∧
          safety ≥ criteria.safety_min then
        blockSet blocks COMPOUNDER_QUALITY_BOOST_BLOCK
          (min 5 (blockGet blocks COMPOUNDER_QUALITY_BOOST_BLOCK + COMPOUNDER_QUALITY_BOOST_POINTS))
      else blocks
    | _, _, _ => blocks

/- ===== Score normalization ===== -/

/-- Source function `get_profile_max_total`. -/
def get_profile_max_total : Profile → ℤ
  | Profile.Financial => 20
  | Profile.Standard => 17

/-- Source function `normalize_score`. -/
def normalize_score (score_raw : ℤ) (profile : Profile) : ℤ :=
  if SCORING_NORMALIZATION_ENABLED = false then score_raw
  else
    let max_total := get_profile_max_total profile
    let score_normalized := pyRound ((score_raw * 20 : ℚ) / (max_total : ℚ))
    max 0 (min 20 score_normalized)

/- ===== Recommendation mapper ===== -/

/-- The recommendation record (`warnings = []` models the absent key). -/
structure Recommendation where
  action : String
  description : String
  warnings : List String
deriving Repr, DecidableEq

/-- Source function `get_recommendation`. -/
def get_recommendation (score : ℤ) (flags : Flags) : Option Recommendation :=
  if RECOMMENDATION_ENABLED = false then none
  else
    let effective_score :=
      if flags.special_dividend = true ∧ score ≥ 12 then score - 1 else score
    match RECOMMENDATION_THRESHOLDS.find?
        (fun c => decide (c.score_min ≤ effective_score ∧ effective_score ≤ c.score_max)) with
    | none => some { action := "INDEFINI", description := "Score hors limites", warnings := [] }
    | some c =>
      let w1 : List String :=
        if flags.payout_unsustainable = true ∧ score ≥ 14 then
          ["⚠️ Surveiller dividende (payout élevé)"] else []
      let w2 : List String :=
        if flags.high_yield_alert = true ∧ (c.action = "ACHETER" ∨ c.action = "RENFORCER") then
          ["⚠️ Yield extrême, vérifier durabilité"] else []
      let w3 : List String :=
        if flags.special_dividend = true ∧ score ≥ 12 then
          ["⚠️ Dividende exceptionnel détecté"] else []
      some { action := c.action, description := c.description, warnings := w1 ++ w2 ++ w3 }

/- ===== Profile classifier and orchestrator ===== -/

/-- Python `s.upper()` (ASCII case mapping, character by character; all
strings the pipeline uppercases are ASCII quote types). -/
def py_upper (s : String) : String :=
  String.mk (s.data.map Char.toUpper)

/-- Python `s.lower()` (ASCII case mapping, character by character). -/
def py_lower (s : String) : String :=
  String.mk (s.data.map Char.toLower)

/-- Python `needle in haystack` on strings (substring test). -/
def str_contains (haystack needle : String) : Bool :=
  decide (needle.data <:+: haystack.data)

/-- The keyword list of `is_financial_firm`. -/
def financial_keywords : List String :=
  ["financial", "bank", "insurance", "capital markets",
   "asset management", "credit services"]

/-- Source function `is_financial_firm`: keyword substring test on lower-cased
sector/industry (absent fields default to the empty string). -/
def is_financial_firm (info : Info) : Bool :=
  let sector := py_lower (info.sector.getD "")
  let industry := py_lower (info.industry.getD "")
  financial_keywords.any (fun kw => str_contains sector kw || str_contains industry kw)

/-- Python `a or b` for an optional string left operand: the empty string
is falsy, so it also falls through to `b`. -/
def str_or (a : Option String) (b : String) : String :=
  match a with
  | some s => if s ≠ "" then s else b
  | none => b

/-- The profile string attached to the result. -/
def profile_str : Profile → String
  | Profile.Financial => "Financial"
  | Profile.Standard => "Standard"

/-- The `Details` sub-dict of a result. -/
structure Details where
  blocks : Blocks
  raw : Raw
deriving Repr, DecidableEq

/-- The per-security result dict of `analyze_stock`.  The `Error` key is
only present on the failure paths (`none` = key absent). -/
structure AnalysisResult where
  Ticker : String
  Name : String
  Error : Option String := none
  Profil : Option String := none
  Score : Option String := none
  Recommendation : Option Recommendation := none
  Flags : Option Flags := none
  Details : Option Details := none

/-- Source function `analyze_stock`, given the already-fetched `info` mapping.  The network
fetch itself (`yf.Ticker(symbol).info`) is an external collaborator; the
embedded function is the body from `info = ticker.info` onward, which is
total (the `except` branch only catches fetch/type failures that cannot
occur in the rational model). -/
def analyze_stock_with_info (symbol : String) (info : Info) : AnalysisResult :=
  let company_name := str_or info.shortName (str_or info.longName symbol)
  let quote_type := info.quoteType.getD ""
  if (["EQUITY", "ETF"].contains (py_upper quote_type)) = false then
    { Ticker := symbol, Name := company_name,
      Error := some ("Invalid quoteType: " ++ quote_type),
      Profil := none, Score := none, Recommendation := none,
      Flags := none, Details := none }
  else
    let is_financial := is_financial_firm info
    let profile := if is_financial = true then Profile.Financial else Profile.Standard
    let blocks0 :=
      if is_financial = true then (get_financial_score info).2 else (get_standard_score info).2
    let raw := if is_financial = true then build_raw_financial info else build_raw_standard info
    let flags := compute_flags info profile raw
    let blocks1 := apply_all_penalties profile blocks0 flags raw
    let blocks := apply_compounder_boost profile blocks1 raw
    let score_raw := blocks.Quality + blocks.Safety + blocks.ValueGrowth + blocks.Dividend
    let score_normalized := normalize_score score_raw profile
    let recommendation := get_recommendation score_normalized flags
    { Ticker := symbol, Name := company_name, Error := none,
      Profil := some (profile_str profile),
      Score := some (toString score_normalized),
      Recommendation := recommendation,
      Flags := some flags,
      Details := some { blocks := blocks, raw := raw } }

/-- C5: for every integer raw score and both profiles, the normalized score
equals `round(score_raw * 20 / max_total)` clamped into [0, 20], with
`max_total` 20 for Financial and 17 for Standard, and is therefore always
in [0, 20]. -/
theorem C5_normalize_score (score_raw : ℤ) (profile : Profile) :
    normalize_score score_raw profile =
      max 0 (min 20 (pyRound ((score_raw * 20 : ℚ) /
        (match profile with
         | Profile.Financial => (20 : ℚ)
         | Profile.Standard => (17 : ℚ))))) ∧
    get_profile_max_total Profile.Financial = 20 ∧
    get_profile_max_total Profile.Standard = 17 ∧
    0 ≤ normalize_score score_raw profile ∧ normalize_score score_raw profile ≤ 20 := by
  refine ⟨?_, rfl, rfl, ?_, ?_⟩
  · cases profile <;>
      simp [normalize_score, get_profile_max_total, SCORING_NORMALIZATION_ENABLED]
  · cases profile <;>
      (simp only [normalize_score, SCORING_NORMALIZATION_ENABLED]; norm_num)
  · cases profile <;>
      (simp only [normalize_score, SCORING_NORMALIZATION_ENABLED]; norm_num)

/-- C4: for every fetched info whose (uppercased) quoteType is not EQUITY
or ETF, `analyze_stock` returns a result whose Error field names the
quoteType and whose Profil, Score, Flags and Details fields are all
absent; the embedded function is total, so no exception can escape. -/
theorem C4_quote_type_gate (symbol : String) (info : Info)
    (h : (["EQUITY", "ETF"].contains (py_upper (info.quoteType.getD ""))) = false) :
    (analyze_stock_with_info symbol info).Error =
      some ("Invalid quoteType: " ++ info.quoteType.getD "") ∧
    (analyze_stock_with_info symbol info).Profil = none ∧
    (analyze_stock_with_info symbol info).Score = none ∧
    (analyze_stock_with_info symbol info).Flags = none ∧
    (analyze_stock_with_info symbol info).Details = none := by
  have h' : ¬py_upper (info.quoteType.getD "") = "EQUITY" ∧
      ¬py_upper (info.quoteType.getD "") = "ETF" := by simpa using h
  simp [analyze_stock_with_info, h'.1, h'.2]

/-- Concrete input for the C4 witness: scenario D, a mutual fund. -/
def infoD : Info := { quoteType := some "MUTUALFUND" }

/-- C4 witness: the quote-type gate evaluated at scenario D
(`quoteType = "MUTUALFUND"`). -/
theorem C4_witness :
    ((["EQUITY", "ETF"].contains (py_upper (infoD.quoteType.getD ""))) = false) ∧
    (analyze_stock_with_info "D" infoD).Error = some "Invalid quoteType: MUTUALFUND" ∧
    (analyze_stock_with_info "D" infoD).Profil = none ∧
    (analyze_stock_with_info "D" infoD).Score = none ∧
    (analyze_stock_with_info "D" infoD).Flags = none ∧
    (analyze_stock_with_info "D" infoD).Details = none := by
  have h := C4_quote_type_gate "D" infoD (by decide)
  exact ⟨by decide, by simpa [infoD] using h.1, h.2.1, h.2.2.1, h.2.2.2.1, h.2.2.2.2⟩

/-- C10: the `extreme_peg` flag is write-only.  Two flag dicts that agree
on every other field produce identical outputs from
`apply_all_penalties`, `apply_compounder_boost` (which does not even
take the flags) and `get_recommendation`. -/
theorem C10_extreme_peg_write_only (profile : Profile) (blocks : Blocks) (raw : Raw)
    (score : ℤ) (f1 f2 : Flags)
    (h : f1.missing_data = f2.missing_data ∧ f1.missing_fields = f2.missing_fields ∧
      f1.payout_unsustainable = f2.payout_unsustainable ∧
      f1.special_dividend = f2.special_dividend ∧
      f1.high_yield_alert = f2.high_yield_alert) :
    apply_all_penalties profile blocks f1 raw = apply_all_penalties profile blocks f2 raw ∧
    apply_compounder_boost profile blocks raw = apply_compounder_boost profile blocks raw ∧
    get_recommendation score f1 = get_recommendation score f2 := by
  obtain ⟨h1, h2, h3, h4, h5⟩ := h
  cases f1
  cases f2
  simp only at h1 h2 h3 h4 h5
  subst h1 h2 h3 h4 h5
  exact ⟨rfl, rfl, rfl⟩

/-- C10 witness: the write-only property evaluated at a concrete pair of
flag dicts differing exactly in `extreme_peg`. -/
theorem C10_witness :
    apply_all_penalties Profile.Standard ⟨1, 1, 1, 1⟩
        ⟨false, [], false, false, true, false⟩ {} =
      apply_all_penalties Profile.Standard ⟨1, 1, 1, 1⟩
        ⟨false, [], false, false, false, false⟩ {} ∧
    get_recommendation 10 ⟨false, [], false, false, true, false⟩ =
      get_recommendation 10 ⟨false, [], false, false, false, false⟩ := by
  have h := C10_extreme_peg_write_only Profile.Standard ⟨1, 1, 1, 1⟩ {} 10
    ⟨false, [], false, false, true, false⟩ ⟨false, [], false, false, false, false⟩
    ⟨rfl, rfl, rfl, rfl, rfl⟩
  exact ⟨h.1, h.2.2⟩

/-- Counterexample input for C7: `forwardPE` present but exactly 0 is falsy
in the Python truthiness guard, so PEGY comes out `None` even though all
three fields are present, `epsCurrentYear > 0` and the growth rate is
positive. -/
def infoC7 : Info := { forwardPE := some 0, epsCurrentYear := some 1, epsForward := some 2 }

/-- C7 counterexample: at `forwardPE = 0, epsCurrentYear = 1,
epsForward = 2` all three fields are present, `epsCurrentYear > 0` and
the growth rate is 1 > 0, yet `compute_pegy_standard` returns `none`
rather than the claimed `forwardPE / (growth * 100)` — the Python
truthiness guard treats the present-but-zero `forwardPE` as absent. -/
theorem C7_counterexample :
    compute_pegy_standard infoC7 = none ∧
    infoC7.forwardPE = some 0 ∧ infoC7.epsCurrentYear = some 1 ∧
    infoC7.epsForward = some 2 ∧ (((2 : ℚ) - 1) / 1) > 0 ∧
    compute_pegy_standard infoC7 ≠ some ((0 : ℚ) / ((((2 : ℚ) - 1) / 1) * 100)) := by
  refine ⟨rfl, rfl, rfl, rfl, by norm_num, ?_⟩
  decide

/-- Reference definition following the amended claim C7: PEGY is
`forwardPE / (growth × 100)` exactly when the three fields are present,
`forwardPE` is nonzero, `epsCurrentYear > 0` and the growth rate
`(epsForward − epsCurrentYear)/epsCurrentYear` is positive; otherwise
absent. -/
def pegy_claim (info : Info) : Option ℚ :=
  match info.forwardPE, info.epsCurrentYear, info.epsForward with
  | some pe, some ec, some ef =>
    if pe ≠ 0 ∧ ec > 0 ∧ (ef - ec) / ec > 0 then some (pe / ((ef - ec) / ec * 100))
    else none
  | _, _, _ => none

/-- C7 (amended): PEGY equals
`forwardPE / ((epsForward - epsCurrentYear) / epsCurrentYear * 100)`
exactly when the three fields are present, `forwardPE` is nonzero,
`epsCurrentYear > 0` and the growth rate is positive; in every other
case (field absent, `forwardPE = 0`, `epsCurrentYear <= 0`, or growth
rate ≤ 0) PEGY is absent. -/
theorem C7_amended (info : Info) : compute_pegy_standard info = pegy_claim info := by
  unfold compute_pegy_standard pegy_claim
  cases info.forwardPE with
  | none => rfl
  | some pe =>
  cases info.epsCurrentYear with
  | none => rfl
  | some ec =>
  cases info.epsForward with
  | none => rfl
  | some ef =>
  by_cases h1 : pe = 0
  · simp [h1]
  by_cases h2 : 0 < ec
  · by_cases h3 : 0 < (ef - ec) / ec
    · have hd : 0 < ef - ec := by
        rcases lt_trichotomy (ef - ec) 0 with h | h | h
        · exact absurd h3 (not_lt.mpr (le_of_lt (div_neg_of_neg_of_pos h h2)))
        · rw [h, zero_div] at h3
          exact absurd h3 (lt_irrefl 0)
        · exact h
      have hefne : ef ≠ 0 := by
        intro h0
        rw [h0] at hd
        linarith
      simp [h1, ne_of_gt h2, hefne, h2, h3, not_le.mpr h3]
    · push_neg at h3
      by_cases hef : ef = 0
      · norm_num [h1, ne_of_gt h2, hef, h2]
      · simp [h1, ne_of_gt h2, hef, h2, h3, not_lt.mpr h3]
  · push_neg at h2
    simp [not_lt.mpr h2]


/-- C8: in both raw-metrics builders, `yield_pct`/`payout_pct` carry the
normalized fraction × 100 rounded to 2 decimals exactly when the
normalized value is truthy (present and nonzero), and are absent
whenever it is falsy — including when it is exactly zero, so a true 0%
yield is indistinguishable from an absent one in the raw snapshot. -/
theorem C8_truthy_rounding (info : Info) (v : ℚ) :
    ((build_raw_standard info).yield_pct = some v ↔
      ∃ y, normalize_yield_fraction info.dividendYield = some y ∧ y ≠ 0 ∧
        v = pyRound2 (y * 100)) ∧
    ((build_raw_standard info).payout_pct = some v ↔
      ∃ p, normalize_payout_ratio info.payoutRatio = some p ∧ p ≠ 0 ∧
        v = pyRound2 (p * 100)) ∧
    (build_raw_financial info).yield_pct = (build_raw_standard info).yield_pct ∧
    (build_raw_financial info).payout_pct = (build_raw_standard info).payout_pct ∧
    (build_raw_standard { info with dividendYield := some 0 }).yield_pct = none ∧
    (build_raw_standard { info with payoutRatio := some 0 }).payout_pct = none ∧
    (build_raw_standard { info with dividendYield := none }).yield_pct = none ∧
    (build_raw_standard { info with payoutRatio := none }).payout_pct = none := by
  refine ⟨?_, ?_, rfl, rfl,
    by norm_num [build_raw_standard, pct_of_truthy, normalize_yield_fraction],
    by norm_num [build_raw_standard, pct_of_truthy, normalize_payout_ratio],
    by simp [build_raw_standard, pct_of_truthy, normalize_yield_fraction],
    by simp [build_raw_standard, pct_of_truthy, normalize_payout_ratio]⟩
  · show pct_of_truthy (normalize_yield_fraction info.dividendYield) = some v ↔ _
    cases normalize_yield_fraction info.dividendYield with
    | none => simp [pct_of_truthy]
    | some y =>
      by_cases hy : y = 0
      · simp [pct_of_truthy, hy]
      · simp only [pct_of_truthy, if_pos hy, Option.some.injEq]
        constructor
        · intro h
          exact ⟨y, rfl, hy, h.symm⟩
        · rintro ⟨y2, rfl, -, rfl⟩
          rfl
  · show pct_of_truthy (normalize_payout_ratio info.payoutRatio) = some v ↔ _
    cases normalize_payout_ratio info.payoutRatio with
    | none => simp [pct_of_truthy]
    | some p =>
      by_cases hp : p = 0
      · simp [pct_of_truthy, hp]
      · simp only [pct_of_truthy, if_pos hp, Option.some.injEq]
        constructor
        · intro h
          exact ⟨p, rfl, hp, h.symm⟩
        · rintro ⟨p2, rfl, -, rfl⟩
          rfl

/-- Concrete input for scenario B of claim C6: `payoutRatio = 1.6`, i.e.
`payout_pct = 160`. -/
def infoB : Info := { payoutRatio := some 1.6 }

/-- C6: the Standard-profile extreme-payout gate applies only the first
matching threshold in descending order: `payout_pct >= 150` forces
Dividend to 0 and subtracts 1 from Safety (floored at 0) without also
applying the cap; otherwise `payout_pct >= 100` caps Dividend at 1;
otherwise the blocks are untouched.  Scenario B (`payoutRatio = 1.6`,
i.e. `payout_pct = 160`) triggers both the `payout_unsustainable` flag
and the ≥150 gate. -/
theorem C6_extreme_payout_gate (blocks : Blocks) (raw : Raw) (p : ℚ)
    (hp : raw.payout_pct = some p) :
    (p ≥ 150 → penalty_step_extreme_payout Profile.Standard blocks raw =
      { blocks with
          Dividend := 0
          Safety := max 0 (blocks.Safety - 1) }) ∧
    (¬p ≥ 150 → p ≥ 100 → penalty_step_extreme_payout Profile.Standard blocks raw =
      { blocks with Dividend := min blocks.Dividend 1 }) ∧
    (¬p ≥ 150 → ¬p ≥ 100 → penalty_step_extreme_payout Profile.Standard blocks raw = blocks) ∧
    (get_standard_score infoB).2 = ⟨1, 2, 2, 0⟩ ∧
    build_raw_standard infoB = { payout_pct := some 160 } ∧
    (compute_flags infoB Profile.Standard (build_raw_standard infoB)).payout_unsustainable
      = true ∧
    apply_all_penalties Profile.Standard (get_standard_score infoB).2
        (compute_flags infoB Profile.Standard (build_raw_standard infoB))
        (build_raw_standard infoB) = ⟨1, 1, 2, 0⟩ := by
  have hraw : build_raw_standard infoB = { payout_pct := some 160 } := by
    norm_num [build_raw_standard, infoB, normalize_yield_fraction, normalize_payout_ratio,
      pct_of_truthy, compute_pegy_standard, pyRound2, pyRound]
  have hblocks : (get_standard_score infoB).2 = ⟨1, 2, 2, 0⟩ := by
    norm_num [get_standard_score, infoB, score_quality_standard, score_safety_standard,
      score_value_growth_standard, score_dividend_standard, compute_pegy_standard,
      normalize_yield_fraction, normalize_payout_ratio, safety_beta_term, safety_debt_term,
      DIVIDEND_PAYOUT_MAX]
  have hflags : compute_flags infoB Profile.Standard (build_raw_standard infoB) =
      { missing_data := true,
        missing_fields := ["roa", "totalDebt", "totalCash", "ebitda", "beta", "yield_pct", "pegy"],
        payout_unsustainable := true,
        special_dividend := false,
        extreme_peg := false,
        high_yield_alert := false } := by
    rw [hraw]
    norm_num [compute_flags, infoB, rawGet, required_fields, MISSING_DATA_MIN_FIELDS,
      detect_special_dividend, SPECIAL_DIVIDEND_DETECTION_ENABLED, PAYOUT_UNSUSTAINABLE_MIN,
      HIGH_YIELD_ALERT_MIN, normalize_yield_fraction, List.filter]
  refine ⟨?_, ?_, ?_, hblocks, hraw, by rw [hflags], ?_⟩
  · intro h150
    simp only [penalty_step_extreme_payout, hp, EXTREME_PAYOUT_GATE_ENABLED,
      EXTREME_PAYOUT_THRESHOLDS, List.find?]
    rw [decide_eq_true h150]
    rfl
  · intro h150 h100
    simp only [penalty_step_extreme_payout, hp, EXTREME_PAYOUT_GATE_ENABLED,
      EXTREME_PAYOUT_THRESHOLDS, List.find?]
    rw [decide_eq_false h150, decide_eq_true h100]
    rfl
  · intro h150 h100
    simp only [penalty_step_extreme_payout, hp, EXTREME_PAYOUT_GATE_ENABLED,
      EXTREME_PAYOUT_THRESHOLDS, List.find?]
    rw [decide_eq_false h150, decide_eq_false h100]
    rfl
  · rw [hblocks, hflags, hraw]
    norm_num [apply_all_penalties, penalty_step_special_dividend, penalty_step_high_yield,
      penalty_step_financial_risk, penalty_step_extreme_payout, EXTREME_PAYOUT_GATE_ENABLED,
      EXTREME_PAYOUT_THRESHOLDS, List.find?]

/-- C6 witness: the gate evaluated at `payout_pct = 160` on concrete
blocks. -/
theorem C6_witness :
    ((160 : ℚ) ≥ 150 →
      penalty_step_extreme_payout Profile.Standard ⟨1, 5, 5, 5⟩ { payout_pct := some 160 } =
        { Quality := 1, Safety := max 0 ((5 : ℤ) - 1), ValueGrowth := 5, Dividend := 0 }) ∧
    (160 : ℚ) ≥ 150 := by
  have h := C6_extreme_payout_gate ⟨1, 5, 5, 5⟩ { payout_pct := some 160 } 160 rfl
  exact ⟨fun _ => h.1 (by norm_num), by norm_num⟩

/-- The three warning strings of `get_recommendation`, assembled as the
claim describes them: each condition tests the original score (and, for
the high-yield warning, the matched action), not the effective score. -/
def reco_warnings (score : ℤ) (flags : Flags) (action : String) : List String :=
  (if flags.payout_unsustainable = true ∧ score ≥ 14 then
    ["⚠️ Surveiller dividende (payout élevé)"] else []) ++
  (if flags.high_yield_alert = true ∧ (action = "ACHETER" ∨ action = "RENFORCER") then
    ["⚠️ Yield extrême, vérifier durabilité"] else []) ++
  (if flags.special_dividend = true ∧ score ≥ 12 then
    ["⚠️ Dividende exceptionnel détecté"] else [])

/-- Reference recommendation mapper following claim C3 word for word:
the action band is selected by the effective score (score − 1 when
`special_dividend` is set and score ≥ 12), with explicit band bounds
ACHETER 16–20, RENFORCER 14–15, CONSERVER 12–13, ALLEGER 9–11,
VENDRE 0–8; warnings test the original score. -/
def get_recommendation_claim (score : ℤ) (flags : Flags) : Option Recommendation :=
  let eff := if flags.special_dividend = true ∧ score ≥ 12 then score - 1 else score
  if 16 ≤ eff ∧ eff ≤ 20 then
    some { action := "ACHETER",
           description := "Excellence exceptionnelle - Opportunité d\x27accumulation prioritaire",
           warnings := reco_warnings score flags "ACHETER" }
  else if 14 ≤ eff ∧ eff ≤ 15 then
    some { action := "RENFORCER",
           description := "Très bonne qualité - Accumuler progressivement sur replis",
           warnings := reco_warnings score flags "RENFORCER" }
  else if 12 ≤ eff ∧ eff ≤ 13 then
    some { action := "CONSERVER",
           description := "Cœur de portefeuille - Tenir long terme, ne pas vendre",
           warnings := reco_warnings score flags "CONSERVER" }
  else if 9 ≤ eff ∧ eff ≤ 11 then
    some { action := "ALLEGER",
           description := "Qualité correcte mais pas prioritaire - Réduire si surpondéré",
           warnings := reco_warnings score flags "ALLEGER" }
  else if 0 ≤ eff ∧ eff ≤ 8 then
    some { action := "VENDRE",
           description := "Qualité insuffisante ou risque élevé - Sortir progressivement",
           warnings := reco_warnings score flags "VENDRE" }
  else
    some { action := "INDEFINI", description := "Score hors limites", warnings := [] }

/-- The table walk of `get_recommendation` agrees with the claim-side
nested-interval mapper on every score and flag combination. -/
theorem get_recommendation_eq_claim (score : ℤ) (flags : Flags) :
    get_recommendation score flags = get_recommendation_claim score flags := by
  unfold get_recommendation get_recommendation_claim
  simp only [RECOMMENDATION_ENABLED, RECOMMENDATION_THRESHOLDS, List.find?, reco_warnings]
  set eff := if flags.special_dividend = true ∧ score ≥ 12 then score - 1 else score with heff
  by_cases h1 : 16 ≤ eff ∧ eff ≤ 20
  · rw [decide_eq_true h1]
    simp [h1]
  · rw [decide_eq_false h1, if_neg h1]
    by_cases h2 : 14 ≤ eff ∧ eff ≤ 15
    · rw [decide_eq_true h2]
      simp [h2]
    · rw [decide_eq_false h2, if_neg h2]
      by_cases h3 : 12 ≤ eff ∧ eff ≤ 13
      · rw [decide_eq_true h3]
        simp [h3]
      · rw [decide_eq_false h3, if_neg h3]
        by_cases h4 : 9 ≤ eff ∧ eff ≤ 11
        · rw [decide_eq_true h4]
          simp [h4]
        · rw [decide_eq_false h4, if_neg h4]
          by_cases h5 : 0 ≤ eff ∧ eff ≤ 8
          · rw [decide_eq_true h5]
            simp [h5]
          · rw [decide_eq_false h5, if_neg h5]
            rfl

/-- C3: `get_recommendation` equals the claim-side mapper — the action
band is chosen by the effective score (score − 1 exactly when
`special_dividend` is set and score ≥ 12) over the bands ACHETER 16–20,
RENFORCER 14–15, CONSERVER 12–13, ALLEGER 9–11, VENDRE 0–8, while all
three warning conditions test the original score, not the effective
one. -/
theorem C3_recommendation_bands (score : ℤ) (flags : Flags) :
    get_recommendation score flags = get_recommendation_claim score flags :=
  get_recommendation_eq_claim score flags

/-- C9: for every score in [0, 20] and every flag dict,
`get_recommendation` returns one of the five real actions; the INDEFINI
fallback is unreachable because the bands cover 0–20 and the effective
score (score − 1 only when score ≥ 12) stays inside [0, 20]. -/
theorem C9_no_indefini (score : ℤ) (flags : Flags) (h0 : 0 ≤ score) (h1 : score ≤ 20) :
    ∃ r, get_recommendation score flags = some r ∧
      (r.action = "ACHETER" ∨ r.action = "RENFORCER" ∨ r.action = "CONSERVER" ∨
        r.action = "ALLEGER" ∨ r.action = "VENDRE") ∧
      r.action ≠ "INDEFINI" := by
  rw [get_recommendation_eq_claim]
  unfold get_recommendation_claim
  set eff := if flags.special_dividend = true ∧ score ≥ 12 then score - 1 else score with heff
  have heffb : 0 ≤ eff ∧ eff ≤ 20 := by
    rw [heff]
    split_ifs with h
    · omega
    · omega
  by_cases hA : 16 ≤ eff ∧ eff ≤ 20
  · exact ⟨_, by rw [if_pos hA], Or.inl rfl, by simp⟩
  by_cases hR : 14 ≤ eff ∧ eff ≤ 15
  · exact ⟨_, by rw [if_neg hA, if_pos hR], Or.inr (Or.inl rfl), by simp⟩
  by_cases hC : 12 ≤ eff ∧ eff ≤ 13
  · exact ⟨_, by rw [if_neg hA, if_neg hR, if_pos hC], Or.inr (Or.inr (Or.inl rfl)), by simp⟩
  by_cases hAl : 9 ≤ eff ∧ eff ≤ 11
  · exact ⟨_, by rw [if_neg hA, if_neg hR, if_neg hC, if_pos hAl],
      Or.inr (Or.inr (Or.inr (Or.inl rfl))), by simp⟩
  have hV : 0 ≤ eff ∧ eff ≤ 8 := by omega
  exact ⟨_, by rw [if_neg hA, if_neg hR, if_neg hC, if_neg hAl, if_pos hV],
    Or.inr (Or.inr (Or.inr (Or.inr rfl))), by simp⟩

/-- C9 witness: the no-INDEFINI property evaluated at score 10 with all
flags clear. -/
theorem C9_witness :
    (0 : ℤ) ≤ 10 ∧ (10 : ℤ) ≤ 20 ∧
    ∃ r, get_recommendation 10 ⟨false, [], false, false, false, false⟩ = some r ∧
      (r.action = "ACHETER" ∨ r.action = "RENFORCER" ∨ r.action = "CONSERVER" ∨
        r.action = "ALLEGER" ∨ r.action = "VENDRE") ∧
      r.action ≠ "INDEFINI" := by
  refine ⟨by norm_num, by norm_num, ?_⟩
  obtain ⟨r, hr, hmem, hne⟩ :=
    C9_no_indefini 10 ⟨false, [], false, false, false, false⟩ (by norm_num) (by norm_num)
  exact ⟨r, hr, hmem, hne⟩

/- ===== Block-bound invariant infrastructure (claim C1) ===== -/

/-- All four blocks non-negative, Quality bounded by `qmax`, the other
three blocks bounded by 5. -/
def blocks_in_bounds (qmax : ℤ) (b : Blocks) : Prop :=
  0 ≤ b.Quality ∧ b.Quality ≤ qmax ∧ 0 ≤ b.Safety ∧ b.Safety ≤ 5 ∧
  0 ≤ b.ValueGrowth ∧ b.ValueGrowth ≤ 5 ∧ 0 ≤ b.Dividend ∧ b.Dividend ≤ 5

/-- The initial blocks dict of the pipeline, per profile. -/
def initial_blocks (profile : Profile) (info : Info) : Blocks :=
  match profile with
  | Profile.Standard => (get_standard_score info).2
  | Profile.Financial => (get_financial_score info).2

/-- The raw-metrics snapshot of the pipeline, per profile. -/
def profile_raw (profile : Profile) (info : Info) : Raw :=
  match profile with
  | Profile.Standard => build_raw_standard info
  | Profile.Financial => build_raw_financial info

theorem score_quality_standard_range (info : Info) :
    0 ≤ score_quality_standard info ∧ score_quality_standard info ≤ 2 := by
  simp only [score_quality_standard]
  repeat' split
  all_goals omega

theorem score_safety_standard_range (info : Info) :
    0 ≤ score_safety_standard info ∧ score_safety_standard info ≤ 5 := by
  simp only [score_safety_standard, safety_beta_term, safety_debt_term]
  repeat' split
  all_goals omega

theorem score_value_growth_standard_range (info : Info) :
    0 ≤ score_value_growth_standard info ∧ score_value_growth_standard info ≤ 5 := by
  simp only [score_value_growth_standard]
  repeat' split
  all_goals omega

theorem score_dividend_standard_range (info : Info) :
    0 ≤ score_dividend_standard info ∧ score_dividend_standard info ≤ 5 := by
  simp only [score_dividend_standard]
  repeat' split
  all_goals omega

theorem score_quality_financial_range (info : Info) :
    0 ≤ score_quality_financial info ∧ score_quality_financial info ≤ 5 := by
  simp only [score_quality_financial]
  repeat' split
  all_goals omega

theorem score_safety_financial_range (info : Info) :
    0 ≤ score_safety_financial info ∧ score_safety_financial info ≤ 5 := by
  simp only [score_safety_financial]
  repeat' split
  all_goals omega

theorem score_value_growth_financial_range (info : Info) :
    0 ≤ score_value_growth_financial info ∧ score_value_growth_financial info ≤ 5 := by
  simp only [score_value_growth_financial]
  repeat' split
  all_goals omega

theorem score_dividend_financial_range (info : Info) :
    0 ≤ score_dividend_financial info ∧ score_dividend_financial info ≤ 5 := by
  simp only [score_dividend_financial]
  repeat' split
  all_goals omega

theorem initial_blocks_bounds (profile : Profile) (info : Info) :
    blocks_in_bounds (match profile with | Profile.Standard => 2 | Profile.Financial => 5)
      (initial_blocks profile info) := by
  cases profile
  · obtain ⟨hq1, hq2⟩ := score_quality_standard_range info
    obtain ⟨hs1, hs2⟩ := score_safety_standard_range info
    obtain ⟨hv1, hv2⟩ := score_value_growth_standard_range info
    obtain ⟨hd1, hd2⟩ := score_dividend_standard_range info
    exact ⟨hq1, hq2, hs1, hs2, hv1, hv2, hd1, hd2⟩
  · obtain ⟨hq1, hq2⟩ := score_quality_financial_range info
    obtain ⟨hs1, hs2⟩ := score_safety_financial_range info
    obtain ⟨hv1, hv2⟩ := score_value_growth_financial_range info
    obtain ⟨hd1, hd2⟩ := score_dividend_financial_range info
    exact ⟨hq1, hq2, hs1, hs2, hv1, hv2, hd1, hd2⟩

theorem penalty_step_special_dividend_bounds (qmax : ℤ) (b : Blocks) (f : Flags)
    (h : blocks_in_bounds qmax b) :
    blocks_in_bounds qmax (penalty_step_special_dividend b f) ∧
    (penalty_step_special_dividend b f).Quality = b.Quality := by
  obtain ⟨h1, h2, h3, h4, h5, h6, h7, h8⟩ := h
  simp only [blocks_in_bounds, penalty_step_special_dividend, SPECIAL_DIVIDEND_PENALTY]
  split_ifs <;> simp <;> omega

theorem penalty_step_high_yield_bounds (qmax : ℤ) (b : Blocks) (f : Flags)
    (h : blocks_in_bounds qmax b) :
    blocks_in_bounds qmax (penalty_step_high_yield b f) ∧
    (penalty_step_high_yield b f).Quality = b.Quality := by
  obtain ⟨h1, h2, h3, h4, h5, h6, h7, h8⟩ := h
  simp only [blocks_in_bounds, penalty_step_high_yield, HIGH_YIELD_DIVIDEND_PENALTY_POINTS]
  split_ifs <;> simp <;> omega

theorem penalty_step_financial_risk_bounds (qmax : ℤ) (profile : Profile) (b : Blocks)
    (raw : Raw) (h : blocks_in_bounds qmax b) :
    blocks_in_bounds qmax (penalty_step_financial_risk profile b raw) ∧
    (penalty_step_financial_risk profile b raw).Quality = b.Quality := by
  obtain ⟨h1, h2, h3, h4, h5, h6, h7, h8⟩ := h
  cases profile
  · exact ⟨⟨h1, h2, h3, h4, h5, h6, h7, h8⟩, rfl⟩
  · simp only [penalty_step_financial_risk, FINANCIAL_OVERALLRISK_SAFETY_PENALTY_ENABLED,
      FINANCIAL_OVERALLRISK_SAFETY_THRESHOLDS, List.find?]
    cases hrisk : raw.overallRisk with
    | none => exact ⟨⟨h1, h2, h3, h4, h5, h6, h7, h8⟩, rfl⟩
    | some risk =>
      dsimp only
      by_cases h7r : risk ≥ 7
      · rw [decide_eq_true h7r]
        exact ⟨⟨h1, h2, (show (0:ℤ) ≤ max 0 (b.Safety - 1) by omega),
          (show max 0 (b.Safety - 1) ≤ 5 by omega), h5, h6, h7, h8⟩, rfl⟩
      · rw [decide_eq_false h7r]
        exact ⟨⟨h1, h2, h3, h4, h5, h6, h7, h8⟩, rfl⟩

theorem penalty_step_extreme_payout_bounds (qmax : ℤ) (profile : Profile) (b : Blocks)
    (raw : Raw) (h : blocks_in_bounds qmax b) :
    blocks_in_bounds qmax (penalty_step_extreme_payout profile b raw) ∧
    (penalty_step_extreme_payout profile b raw).Quality = b.Quality := by
  obtain ⟨h1, h2, h3, h4, h5, h6, h7, h8⟩ := h
  cases profile
  case Financial => exact ⟨⟨h1, h2, h3, h4, h5, h6, h7, h8⟩, rfl⟩
  case Standard =>
  simp only [penalty_step_extreme_payout, EXTREME_PAYOUT_GATE_ENABLED,
    EXTREME_PAYOUT_THRESHOLDS, List.find?]
  cases hpp : raw.payout_pct with
  | none => exact ⟨⟨h1, h2, h3, h4, h5, h6, h7, h8⟩, rfl⟩
  | some p =>
    dsimp only
    by_cases h150 : p ≥ 150
    · rw [decide_eq_true h150]
      exact ⟨⟨h1, h2, (show (0:ℤ) ≤ max 0 (b.Safety - 1) by omega),
        (show max 0 (b.Safety - 1) ≤ 5 by omega), h5, h6,
        (show (0:ℤ) ≤ (0:ℤ) by omega), (show (0:ℤ) ≤ (5:ℤ) by omega)⟩, rfl⟩
    · rw [decide_eq_false h150]
      by_cases h100 : p ≥ 100
      · rw [decide_eq_true h100]
        exact ⟨⟨h1, h2, h3, h4, h5, h6, (show (0:ℤ) ≤ min b.Dividend 1 by omega),
          (show min b.Dividend 1 ≤ 5 by omega)⟩, rfl⟩
      · rw [decide_eq_false h100]
        exact ⟨⟨h1, h2, h3, h4, h5, h6, h7, h8⟩, rfl⟩

theorem apply_compounder_boost_cases (profile : Profile) (b : Blocks) (raw : Raw) :
    apply_compounder_boost profile b raw = b ∨
    (profile = Profile.Standard ∧ apply_compounder_boost profile b raw =
      { b with Quality := min 5 (b.Quality + 1) }) := by
  unfold apply_compounder_boost
  simp only [COMPOUNDER_QUALITY_BOOST_ENABLED]
  cases profile
  case Financial => simp
  case Standard =>
    simp only [COMPOUNDER_QUALITY_BOOST_BLOCK, COMPOUNDER_QUALITY_BOOST_POINTS,
      blockSet, blockGet]
    repeat' split
    all_goals simp_all

/-- Documented Quality bound per profile (Standard 0–2, Financial 0–5). -/
def profile_qmax : Profile → ℤ
  | Profile.Standard => 2
  | Profile.Financial => 5

/-- Quality bound actually guaranteed after the compounder boost
(Standard 0–3, Financial 0–5): the boost adds 1 capped at 5, so a
Standard Quality of 2 can reach 3. -/
def profile_qmax_boost : Profile → ℤ
  | Profile.Standard => 3
  | Profile.Financial => 5

/-- C1 (amended): for every input and both profiles, every block is
non-negative and within its documented bound after initial scoring and
after each of the four penalty steps (Standard Quality 0–2, Financial
Quality 0–5, all other blocks 0–5), and `apply_all_penalties` is
exactly the composition of those four steps.  After step 5 (compounder
boost) every block still lies in 0–5, but Standard Quality is only
bounded by 0–3: the boost adds 1 capped at 5, so it can push a Standard
Quality of 2 above the documented 0–2 bound. -/
theorem C1_amended_block_bounds (info : Info) (profile : Profile) :
    let raw := profile_raw profile info
    let flags := compute_flags info profile raw
    let b0 := initial_blocks profile info
    let b1 := penalty_step_special_dividend b0 flags
    let b2 := penalty_step_high_yield b1 flags
    let b3 := penalty_step_financial_risk profile b2 raw
    let b4 := penalty_step_extreme_payout profile b3 raw
    let b5 := apply_compounder_boost profile b4 raw
    apply_all_penalties profile b0 flags raw = b4 ∧
    blocks_in_bounds (profile_qmax profile) b0 ∧
    blocks_in_bounds (profile_qmax profile) b1 ∧
    blocks_in_bounds (profile_qmax profile) b2 ∧
    blocks_in_bounds (profile_qmax profile) b3 ∧
    blocks_in_bounds (profile_qmax profile) b4 ∧
    blocks_in_bounds (profile_qmax_boost profile) b5 ∧
    blocks_in_bounds 5 b5 := by
  intro raw flags b0 b1 b2 b3 b4 b5
  have h0 : blocks_in_bounds (profile_qmax profile) b0 := by
    have h := initial_blocks_bounds profile info
    cases profile <;> simpa [profile_qmax] using h
  have h1b : blocks_in_bounds (profile_qmax profile) b1 :=
    (penalty_step_special_dividend_bounds _ b0 flags h0).1
  have h2b : blocks_in_bounds (profile_qmax profile) b2 :=
    (penalty_step_high_yield_bounds _ b1 flags h1b).1
  have h3b : blocks_in_bounds (profile_qmax profile) b3 :=
    (penalty_step_financial_risk_bounds _ profile b2 raw h2b).1
  have h4b : blocks_in_bounds (profile_qmax profile) b4 :=
    (penalty_step_extreme_payout_bounds _ profile b3 raw h3b).1
  have h5 : blocks_in_bounds (profile_qmax_boost profile) b5 ∧ blocks_in_bounds 5 b5 := by
    rcases apply_compounder_boost_cases profile b4 raw with hc | ⟨hps, hc⟩
    · constructor
      · show blocks_in_bounds _ (apply_compounder_boost profile b4 raw)
        rw [hc]
        obtain ⟨g1, g2, g3, g4, g5, g6, g7, g8⟩ := h4b
        cases profile <;>
          simp only [profile_qmax, profile_qmax_boost] at g2 ⊢ <;>
          exact ⟨g1, by omega, g3, g4, g5, g6, g7, g8⟩
      · show blocks_in_bounds 5 (apply_compounder_boost profile b4 raw)
        rw [hc]
        obtain ⟨g1, g2, g3, g4, g5, g6, g7, g8⟩ := h4b
        cases profile <;>
          simp only [profile_qmax] at g2 <;>
          exact ⟨g1, by omega, g3, g4, g5, g6, g7, g8⟩
    · obtain ⟨g1, g2, g3, g4, g5, g6, g7, g8⟩ := h4b
      rw [hps] at g2
      simp only [profile_qmax] at g2
      constructor
      · show blocks_in_bounds _ (apply_compounder_boost profile b4 raw)
        rw [hc, hps]
        simp only [profile_qmax_boost]
        exact ⟨(show (0:ℤ) ≤ min 5 (b4.Quality + 1) by omega),
          (show min 5 (b4.Quality + 1) ≤ 3 by omega), g3, g4, g5, g6, g7, g8⟩
      · show blocks_in_bounds 5 (apply_compounder_boost profile b4 raw)
        rw [hc]
        exact ⟨(show (0:ℤ) ≤ min 5 (b4.Quality + 1) by omega),
          (show min 5 (b4.Quality + 1) ≤ 5 by omega), g3, g4, g5, g6, g7, g8⟩
  exact ⟨rfl, h0, h1b, h2b, h3b, h4b, h5.1, h5.2⟩

/-- Counterexample input for C1: a quality compounder in the Standard
profile.  Quality scores 2 (its documented maximum), Safety 3, and the
compounder criteria all hold (roa 0.07 ≥ 0.065, beta 0.5 < 0.9,
payout_pct 50 in [30, 70], Safety 3 ≥ 3), so the boost lifts Quality
to 3 — above the documented 0–2 bound. -/
def infoC1 : Info :=
  { returnOnAssets := some 0.07, beta := some 0.5, payoutRatio := some 0.5 }

/-- C1 counterexample: at `returnOnAssets = 0.07, beta = 0.5,
payoutRatio = 0.5` (Standard profile) Quality scores its maximum 2, the
compounder criteria all hold, and the step-5 boost lifts Quality to 3 —
violating the claimed invariant that Standard Quality stays in 0–2
after every step. -/
theorem C1_counterexample :
    (get_standard_score infoC1).2.Quality = 2 ∧
    (apply_compounder_boost Profile.Standard
        (apply_all_penalties Profile.Standard (get_standard_score infoC1).2
          (compute_flags infoC1 Profile.Standard (build_raw_standard infoC1))
          (build_raw_standard infoC1))
        (build_raw_standard infoC1)).Quality = 3 ∧
    ¬((apply_compounder_boost Profile.Standard
        (apply_all_penalties Profile.Standard (get_standard_score infoC1).2
          (compute_flags infoC1 Profile.Standard (build_raw_standard infoC1))
          (build_raw_standard infoC1))
        (build_raw_standard infoC1)).Quality ≤ 2) := by
  have hraw : build_raw_standard infoC1 =
      { payout_pct := some 50, roa := some 0.07, beta := some 0.5 } := by
    norm_num [build_raw_standard, infoC1, normalize_yield_fraction, normalize_payout_ratio,
      pct_of_truthy, compute_pegy_standard, pyRound2, pyRound]
  have hblocks : (get_standard_score infoC1).2 = ⟨2, 3, 2, 2⟩ := by
    norm_num [get_standard_score, infoC1, score_quality_standard, score_safety_standard,
      score_value_growth_standard, score_dividend_standard, compute_pegy_standard,
      normalize_yield_fraction, normalize_payout_ratio, safety_beta_term, safety_debt_term,
      QUALITY_ROA_THRESHOLDS, SAFETY_BETA_THRESHOLDS, DIVIDEND_PAYOUT_MAX]
  have hflags : compute_flags infoC1 Profile.Standard (build_raw_standard infoC1) =
      { missing_data := true,
        missing_fields := ["totalDebt", "totalCash", "ebitda", "yield_pct", "pegy"],
        payout_unsustainable := false,
        special_dividend := false,
        extreme_peg := false,
        high_yield_alert := false } := by
    rw [hraw]
    norm_num [compute_flags, infoC1, rawGet, required_fields, MISSING_DATA_MIN_FIELDS,
      detect_special_dividend, SPECIAL_DIVIDEND_DETECTION_ENABLED, PAYOUT_UNSUSTAINABLE_MIN,
      HIGH_YIELD_ALERT_MIN, normalize_yield_fraction, List.filter]
  have hfinal : (apply_compounder_boost Profile.Standard
      (apply_all_penalties Profile.Standard (get_standard_score infoC1).2
        (compute_flags infoC1 Profile.Standard (build_raw_standard infoC1))
        (build_raw_standard infoC1))
      (build_raw_standard infoC1)) = ⟨3, 3, 2, 2⟩ := by
    rw [hblocks, hflags, hraw]
    norm_num [apply_all_penalties, penalty_step_special_dividend, penalty_step_high_yield,
      penalty_step_financial_risk, penalty_step_extreme_payout, EXTREME_PAYOUT_GATE_ENABLED,
      EXTREME_PAYOUT_THRESHOLDS, List.find?, apply_compounder_boost,
      COMPOUNDER_QUALITY_BOOST_ENABLED, COMPOUNDER_QUALITY_BOOST_BLOCK,
      COMPOUNDER_QUALITY_BOOST_POINTS, COMPOUNDER_QUALITY_CRITERIA, blockSet, blockGet]
  exact ⟨by rw [hblocks], by rw [hfinal], by rw [hfinal]; norm_num⟩

/-- The Scenario A input of claim C2 (Standard profile). -/
def infoA : Info :=
  { returnOnAssets := some 0.06, beta := some 0.5, totalDebt := some 100,
    ebitda := some 100, forwardPE := some 12, epsCurrentYear := some 2,
    epsForward := some 2.5, dividendYield := some 4.5, payoutRatio := some 0.5 }

/-- C2 counterexample: at scenario A the dividend yield 0.045 meets the
≥ 0.04 threshold and contributes 2 points (not 1), so Dividend is 4
(not 3), the raw sum is 16 (not 15) and the normalized score is
`round(16 * 20 / 17) = 19` (not 18). -/
theorem C2_counterexample :
    score_dividend_standard infoA = 4 ∧ ¬score_dividend_standard infoA = 3 ∧
    (get_standard_score infoA).1 = 16 ∧ ¬(get_standard_score infoA).1 = 15 ∧
    normalize_score 16 Profile.Standard = 19 ∧
    ¬normalize_score (get_standard_score infoA).1 Profile.Standard = 18 := by
  have hdiv : score_dividend_standard infoA = 4 := by
    norm_num [score_dividend_standard, infoA, normalize_yield_fraction,
      normalize_payout_ratio, DIVIDEND_YIELD_THRESHOLDS, DIVIDEND_PAYOUT_MAX]
  have htotal : (get_standard_score infoA).1 = 16 := by
    norm_num [get_standard_score, infoA, score_quality_standard, score_safety_standard,
      score_value_growth_standard, score_dividend_standard, compute_pegy_standard,
      normalize_yield_fraction, normalize_payout_ratio, safety_beta_term, safety_debt_term,
      QUALITY_ROA_THRESHOLDS, SAFETY_BETA_THRESHOLDS, SAFETY_DEBT_RATIO_THRESHOLD,
      PEGY_THRESHOLDS, PE_FWD_THRESHOLD, DIVIDEND_YIELD_THRESHOLDS, DIVIDEND_PAYOUT_MAX]
  have hnorm : normalize_score 16 Profile.Standard = 19 := by
    norm_num [normalize_score, SCORING_NORMALIZATION_ENABLED, get_profile_max_total, pyRound]
  refine ⟨hdiv, by rw [hdiv]; norm_num, htotal, by rw [htotal]; norm_num, hnorm, ?_⟩
  rw [htotal, hnorm]
  norm_num

/-- C2 (amended): scenario A yields Quality 2, Safety 5, ValueGrowth 5,
Dividend 4 (yield 0.045 → 2 points, payout 0.5 → 2 points), raw sum 16,
no penalty or boost changes, normalized score 19, no flags set, and
recommendation ACHETER with no warnings. -/
theorem C2_amended_scenario_a :
    normalize_yield_fraction infoA.dividendYield = some 0.045 ∧
    (get_standard_score infoA).2 = ⟨2, 5, 5, 4⟩ ∧
    (get_standard_score infoA).1 = 16 ∧
    (compute_flags infoA Profile.Standard (build_raw_standard infoA)).missing_data = false ∧
    (compute_flags infoA Profile.Standard (build_raw_standard infoA)).payout_unsustainable
      = false ∧
    (compute_flags infoA Profile.Standard (build_raw_standard infoA)).special_dividend
      = false ∧
    (compute_flags infoA Profile.Standard (build_raw_standard infoA)).extreme_peg = false ∧
    (compute_flags infoA Profile.Standard (build_raw_standard infoA)).high_yield_alert
      = false ∧
    apply_compounder_boost Profile.Standard
        (apply_all_penalties Profile.Standard (get_standard_score infoA).2
          (compute_flags infoA Profile.Standard (build_raw_standard infoA))
          (build_raw_standard infoA))
        (build_raw_standard infoA) = ⟨2, 5, 5, 4⟩ ∧
    normalize_score 16 Profile.Standard = 19 ∧
    (get_recommendation 19
        (compute_flags infoA Profile.Standard (build_raw_standard infoA))).map
      Recommendation.action = some "ACHETER" ∧
    (get_recommendation 19
        (compute_flags infoA Profile.Standard (build_raw_standard infoA))).map
      Recommendation.warnings = some [] := by
  have hraw : build_raw_standard infoA =
      { yield_pct := some 4.5, payout_pct := some 50, pegy := some (12/25),
        roa := some 0.06, totalDebt := some 100, ebitda := some 100, beta := some 0.5 } := by
    norm_num [build_raw_standard, infoA, normalize_yield_fraction, normalize_payout_ratio,
      pct_of_truthy, compute_pegy_standard, pyRound2, pyRound]
  have hblocks : (get_standard_score infoA).2 = ⟨2, 5, 5, 4⟩ := by
    norm_num [get_standard_score, infoA, score_quality_standard, score_safety_standard,
      score_value_growth_standard, score_dividend_standard, compute_pegy_standard,
      normalize_yield_fraction, normalize_payout_ratio, safety_beta_term, safety_debt_term,
      QUALITY_ROA_THRESHOLDS, SAFETY_BETA_THRESHOLDS, SAFETY_DEBT_RATIO_THRESHOLD,
      PEGY_THRESHOLDS, PE_FWD_THRESHOLD, DIVIDEND_YIELD_THRESHOLDS, DIVIDEND_PAYOUT_MAX]
  have htotal : (get_standard_score infoA).1 = 16 := by
    have : (get_standard_score infoA).1 =
        (get_standard_score infoA).2.Quality + (get_standard_score infoA).2.Safety +
        (get_standard_score infoA).2.ValueGrowth + (get_standard_score infoA).2.Dividend := rfl
    rw [this, hblocks]
    norm_num
  have hflags : compute_flags infoA Profile.Standard (build_raw_standard infoA) =
      { missing_data := false,
        missing_fields := ["totalCash"],
        payout_unsustainable := false,
        special_dividend := false,
        extreme_peg := false,
        high_yield_alert := false } := by
    rw [hraw]
    norm_num [compute_flags, infoA, rawGet, required_fields, MISSING_DATA_MIN_FIELDS,
      detect_special_dividend, SPECIAL_DIVIDEND_DETECTION_ENABLED,
      SPECIAL_DIVIDEND_THRESHOLD_PCT, PAYOUT_UNSUSTAINABLE_MIN, HIGH_YIELD_ALERT_MIN,
      EXTREME_PEG_LOW_MAX, EXTREME_PEG_HIGH_MIN, SPECIAL_DIV_MULTIPLIER,
      normalize_yield_fraction, List.filter]
  have hfinal : apply_compounder_boost Profile.Standard
      (apply_all_penalties Profile.Standard (get_standard_score infoA).2
        (compute_flags infoA Profile.Standard (build_raw_standard infoA))
        (build_raw_standard infoA))
      (build_raw_standard infoA) = ⟨2, 5, 5, 4⟩ := by
    rw [hblocks, hflags, hraw]
    norm_num [apply_all_penalties, penalty_step_special_dividend, penalty_step_high_yield,
      penalty_step_financial_risk, penalty_step_extreme_payout, EXTREME_PAYOUT_GATE_ENABLED,
      EXTREME_PAYOUT_THRESHOLDS, List.find?, apply_compounder_boost,
      COMPOUNDER_QUALITY_BOOST_ENABLED, COMPOUNDER_QUALITY_BOOST_BLOCK,
      COMPOUNDER_QUALITY_BOOST_POINTS, COMPOUNDER_QUALITY_CRITERIA, blockSet, blockGet]
  have hnorm : normalize_score 16 Profile.Standard = 19 := by
    norm_num [normalize_score, SCORING_NORMALIZATION_ENABLED, get_profile_max_total, pyRound]
  have hyield : normalize_yield_fraction infoA.dividendYield = some 0.045 := by
    norm_num [normalize_yield_fraction, infoA]
  have hreco : get_recommendation 19
      ({ missing_data := false,
         missing_fields := ["totalCash"],
         payout_unsustainable := false,
         special_dividend := false,
         extreme_peg := false,
         high_yield_alert := false } : Flags) =
      some { action := "ACHETER",
             description := "Excellence exceptionnelle - Opportunité d\x27accumulation prioritaire",
             warnings := [] } := by
    rfl
  refine ⟨hyield, hblocks, htotal, by rw [hflags], by rw [hflags], by rw [hflags],
    by rw [hflags], by rw [hflags], hfinal, hnorm, ?_, ?_⟩
  · rw [hflags, hreco]
    rfl
  · rw [hflags, hreco]
    rfl
